import Mathlib

/-!
Verification development for the Shipwright repository.

This file gives a shallow embedding of the request-orchestration and
fallback-merge core of the application: the repository analyzer's pure
derivations, the four template generators, the orchestrator's step
bookkeeping and merge rules, and the content agent's bounded completion
loop.  External I/O (GitHub fetches, model completions) is modelled by
passing the fetched/returned values as explicit parameters; JavaScript
truthiness of strings, `||` defaulting and `JSON.stringify` are modelled
explicitly.  Machine integers are modelled as `Nat` (all arithmetic in the
source is small non-negative integer arithmetic with a final clamp).
-/

namespace Shipwright

/-- JavaScript `a || b` for an optional string `a`: `undefined`/`null` and
the empty string are falsy. -/
def jsOr (a : Option String) (b : String) : String :=
  match a with
  | some s => if s = "" then b else s
  | none => b

/-- Decides whether `needle` is a leading segment of `hay` (char lists). -/
def listHasPre : List Char → List Char → Bool
  | [], _ => true
  | _ :: _, [] => false
  | a :: as, b :: bs => a == b && listHasPre as bs

/-- Helper for `strContains`: scans every suffix of the haystack. -/
def strContainsAux (needle : List Char) : List Char → Bool
  | [] => needle.isEmpty
  | c :: cs => listHasPre needle (c :: cs) || strContainsAux needle cs

/-- JavaScript `hay.includes(needle)` on strings. -/
def strContains (hay needle : String) : Bool :=
  strContainsAux needle.data hay.data

/-- Helper for `replaceFirst`: rewrites the first occurrence in a char list. -/
def replaceFirstAux (pat repl : List Char) : List Char → List Char
  | [] => []
  | c :: cs =>
    if listHasPre pat (c :: cs) then repl ++ (c :: cs).drop pat.length
    else c :: replaceFirstAux pat repl cs

/-- JavaScript `s.replace(pat, repl)` with a string pattern: replaces only
the first occurrence (the source uses it with plain-string patterns). -/
def replaceFirst (s pat repl : String) : String :=
  String.mk (replaceFirstAux pat.data repl.data s.data)

/-- JavaScript `s.toLowerCase()` restricted to ASCII case mapping (the
variable names the source lowercases are ASCII identifiers). -/
def jsToLower (s : String) : String :=
  String.mk (s.data.map Char.toLower)

/-- Lowercase hexadecimal digit, for JSON control-character escapes. -/
def hexDigit (n : Nat) : String :=
  (["0", "1", "2", "3", "4", "5", "6", "7", "8", "9",
    "a", "b", "c", "d", "e", "f"]).getD n "0"

/-- JSON escaping of one character, as `JSON.stringify` performs it. -/
def jsonEscapeChar (c : Char) : String :=
  if c = '"' then "\\\""
  else if c = '\\' then "\\\\"
  else if c = '\n' then "\\n"
  else if c = '\r' then "\\r"
  else if c = '\t' then "\\t"
  else if c = '\x08' then "\\b"
  else if c = '\x0c' then "\\f"
  else if c.toNat < 32 then "\\u00" ++ hexDigit (c.toNat / 16) ++ hexDigit (c.toNat % 16)
  else String.singleton c

/-- JSON escaping of a whole string. -/
def jsonEscape (s : String) : String :=
  String.join (s.data.map jsonEscapeChar)

/-- A JSON string literal with surrounding quotes. -/
def jsonQuote (s : String) : String :=
  "\"" ++ jsonEscape s ++ "\""

/-- JSON values as they occur in this codebase's manifests and generated
configs.  Numbers are kept as their raw source text. -/
inductive Jval where
  | null : Jval
  | bool (b : Bool) : Jval
  | num (raw : String) : Jval
  | str (s : String) : Jval
  | arr (xs : List Jval) : Jval
  | obj (fields : List (String × Jval)) : Jval
deriving Repr, BEq

mutual

/-- Compact rendering, as `JSON.stringify(v)` with no indent argument. -/
def renderC : Jval → String
  | .null => "null"
  | .bool b => if b then "true" else "false"
  | .num raw => raw
  | .str s => jsonQuote s
  | .arr xs => "[" ++ String.intercalate "," (renderCItems xs) ++ "]"
  | .obj fs => "\x7b" ++ String.intercalate "," (renderCFields fs) ++ "\x7d"

/-- Compact rendering of array items. -/
def renderCItems : List Jval → List String
  | [] => []
  | x :: xs => renderC x :: renderCItems xs

/-- Compact rendering of object fields. -/
def renderCFields : List (String × Jval) → List String
  | [] => []
  | (k, v) :: fs => (jsonQuote k ++ ":" ++ renderC v) :: renderCFields fs

end

mutual

/-- Pretty rendering at an indentation context, as `JSON.stringify(v, null, 2)`. -/
def renderP (pad : String) : Jval → String
  | .null => "null"
  | .bool b => if b then "true" else "false"
  | .num raw => raw
  | .str s => jsonQuote s
  | .arr [] => "[]"
  | .arr (x :: xs) =>
    "[\n" ++ String.intercalate ",\n" (renderPItems (pad ++ "  ") (x :: xs)) ++ "\n" ++ pad ++ "]"
  | .obj [] => "\x7b\x7d"
  | .obj (f :: fs) =>
    "\x7b\n" ++ String.intercalate ",\n" (renderPFields (pad ++ "  ") (f :: fs)) ++
      "\n" ++ pad ++ "\x7d"

/-- Pretty rendering of array items, each on an indented line. -/
def renderPItems (pad : String) : List Jval → List String
  | [] => []
  | x :: xs => (pad ++ renderP pad x) :: renderPItems pad xs

/-- Pretty rendering of object fields, each on an indented line. -/
def renderPFields (pad : String) : List (String × Jval) → List String
  | [] => []
  | (k, v) :: fs => (pad ++ jsonQuote k ++ ": " ++ renderP pad v) :: renderPFields pad fs

end

-- ─── Data model (src/types/index.ts) ──────────────────────────────────────────

/-- Status of an orchestration step (`AgentStepStatus` in src/types/index.ts). -/
inductive AgentStepStatus where
  | pending
  | running
  | done
  | error
deriving Repr, DecidableEq

/-- One UI-facing orchestration step record (`AgentStep`). -/
structure AgentStep where
  id : String
  label : String
  status : AgentStepStatus
  detail : Option String
deriving Repr, DecidableEq

/-- The provider tag of an `AgentResult`. -/
inductive Provider where
  | openai
  | blackbox
  | template
deriving Repr, DecidableEq

/-- The analyzer's fact sheet (`RepoAnalysis`). -/
structure RepoAnalysis where
  framework : String
  packageManager : String
  backendType : String
  hasDocker : Bool
  envVarsDetected : List String
  buildScript : Option String
  missingConfigs : List String
  deploymentRiskScore : Nat
  description : String
deriving Repr, DecidableEq

/-- The orchestration's final output (`AgentResult`).  `packageJsonScripts`
is a JS record of script name to command, modelled as an association list. -/
structure AgentResult where
  analysis : RepoAnalysis
  aiReadme : String
  aiLandingPage : String
  vercelJson : String
  packageJsonScripts : List (String × String)
  envTemplate : String
  deploymentRecommendations : List String
  steps : List AgentStep
  provider : Provider
deriving Repr, DecidableEq

/-- The content agent's intermediate result (`OpenAIAgentResult`). -/
structure OpenAIAgentResult where
  readme : String
  landingPageCopy : String
  deploymentRecommendations : List String
  enhancedDescription : String
deriving Repr, DecidableEq

/-- The code-insight agent's intermediate result (`BlackboxAgentResult`). -/
structure BlackboxAgentResult where
  codeInsights : String
  vercelConfig : String
  envTemplate : String
  riskAssessment : String
  suggestedScripts : List (String × String)
deriving Repr, DecidableEq

/-- The parsed manifest view used by the analyzer (`interface PackageJson`):
the three fields the analyzer reads, each an object of string values when
present.  An absent field is `none`. -/
structure PackageJson where
  dependencies : Option (List (String × String))
  devDependencies : Option (List (String × String))
  scripts : Option (List (String × String))
deriving Repr, DecidableEq


-- ─── JSON parsing (models JSON.parse for manifest / landing-copy payloads) ────

/-- Skips JSON whitespace. -/
def skipWs (cs : List Char) : List Char :=
  cs.dropWhile (fun c => c = ' ' || c = '\t' || c = '\n' || c = '\r')

/-- Value of a hexadecimal digit, by code point (48-57 digits, 97-102
lowercase, 65-70 uppercase). -/
def hexVal (c : Char) : Option Nat :=
  let code := c.toNat
  if 48 ≤ code && code ≤ 57 then some (code - 48)
  else if 97 ≤ code && code ≤ 102 then some (code - 87)
  else if 65 ≤ code && code ≤ 70 then some (code - 55)
  else none

/-- Parses the body of a JSON string after the opening quote, returning the
decoded characters and the remaining input after the closing quote.  The
fuel argument (any value at least the input length suffices) only bounds
recursion. -/
def parseJStringBody : Nat → List Char → Option (List Char × List Char)
  | 0, _ => none
  | _, [] => none
  | _ + 1, '"' :: rest => some ([], rest)
  | fuel + 1, '\\' :: e :: rest =>
    match e, rest with
    | 'u', a :: b :: c :: d :: rest2 =>
      match hexVal a, hexVal b, hexVal c, hexVal d with
      | some va, some vb, some vc, some vd =>
        (parseJStringBody fuel rest2).map fun (cs, r) =>
          (Char.ofNat (((va * 16 + vb) * 16 + vc) * 16 + vd) :: cs, r)
      | _, _, _, _ => none
    | 'u', _ => none
    | '"', _ => (parseJStringBody fuel rest).map fun (cs, r) => ('"' :: cs, r)
    | '\\', _ => (parseJStringBody fuel rest).map fun (cs, r) => ('\\' :: cs, r)
    | '/', _ => (parseJStringBody fuel rest).map fun (cs, r) => ('/' :: cs, r)
    | 'b', _ => (parseJStringBody fuel rest).map fun (cs, r) => ('\x08' :: cs, r)
    | 'f', _ => (parseJStringBody fuel rest).map fun (cs, r) => ('\x0c' :: cs, r)
    | 'n', _ => (parseJStringBody fuel rest).map fun (cs, r) => ('\n' :: cs, r)
    | 'r', _ => (parseJStringBody fuel rest).map fun (cs, r) => ('\r' :: cs, r)
    | 't', _ => (parseJStringBody fuel rest).map fun (cs, r) => ('\t' :: cs, r)
    | _, _ => none
  | fuel + 1, c :: rest => (parseJStringBody fuel rest).map fun (cs, r) => (c :: cs, r)

/-- Is this character allowed inside a JSON number token? -/
def numChar (c : Char) : Bool :=
  ('0' ≤ c && c ≤ '9') || c = '-' || c = '+' || c = '.' || c = 'e' || c = 'E'

mutual

/-- Parses one JSON value (fuel-bounded recursive descent). -/
def parseJval : Nat → List Char → Option (Jval × List Char)
  | 0, _ => none
  | fuel + 1, cs =>
    match skipWs cs with
    | [] => none
    | c :: tl =>
      if c = '"' then
        (parseJStringBody (tl.length + 1) tl).map fun (s, r) => (.str (String.mk s), r)
      else if c = '[' then
        match skipWs tl with
        | ']' :: past => some (.arr [], past)
        | other => parseArrItems fuel other []
      else if c = '\x7b' then
        match skipWs tl with
        | '\x7d' :: past => some (.obj [], past)
        | other => parseObjFields fuel other []
      else if listHasPre "true".data (c :: tl) then some (.bool true, tl.drop 3)
      else if listHasPre "false".data (c :: tl) then some (.bool false, tl.drop 4)
      else if listHasPre "null".data (c :: tl) then some (.null, tl.drop 3)
      else if c = '-' || ('0' ≤ c && c ≤ '9') then
        some (.num (String.mk (c :: tl.takeWhile numChar)), tl.dropWhile numChar)
      else none

/-- Parses the items of a non-empty JSON array. -/
def parseArrItems : Nat → List Char → List Jval → Option (Jval × List Char)
  | 0, _, _ => none
  | fuel + 1, cs, acc =>
    match parseJval fuel cs with
    | none => none
    | some (v, rest) =>
      match skipWs rest with
      | ',' :: rest2 => parseArrItems fuel rest2 (acc ++ [v])
      | ']' :: rest2 => some (.arr (acc ++ [v]), rest2)
      | _ => none

/-- Parses the fields of a non-empty JSON object. -/
def parseObjFields : Nat → List Char → List (String × Jval) → Option (Jval × List Char)
  | 0, _, _ => none
  | fuel + 1, cs, acc =>
    match skipWs cs with
    | '"' :: rest =>
      match parseJStringBody (rest.length + 1) rest with
      | none => none
      | some (key, rest2) =>
        match skipWs rest2 with
        | ':' :: rest3 =>
          match parseJval fuel rest3 with
          | none => none
          | some (v, rest4) =>
            match skipWs rest4 with
            | ',' :: rest5 => parseObjFields fuel rest5 (acc ++ [(String.mk key, v)])
            | '\x7d' :: rest5 => some (.obj (acc ++ [(String.mk key, v)]), rest5)
            | _ => none
        | _ => none
    | _ => none

end

/-- JavaScript `JSON.parse`, yielding `none` where it would throw. -/
def parseJson (s : String) : Option Jval :=
  match parseJval (s.length + 1) s.data with
  | some (v, rest) => if (skipWs rest).isEmpty then some v else none
  | none => none

-- ─── Landing pages ────────────────────────────────────────────────────────────

/-- The `LandingCopy` shape read off the parsed landing-copy JSON
(`interface LandingCopy` in the orchestrator module). -/
structure LandingCopy where
  headline : Option String
  subheadline : Option String
  features : Option (List String)
deriving Repr, DecidableEq

/-- Reads a string-valued field from a parsed JSON object. -/
def getStrField (fs : List (String × Jval)) (k : String) : Option String :=
  match fs.lookup k with
  | some (.str s) => some s
  | _ => none

/-- Collects a list of JSON strings, refusing other element kinds. -/
def allStrs : List Jval → Option (List String)
  | [] => some []
  | .str s :: rest => (allStrs rest).map (s :: ·)
  | _ => none

/-- Reads an array-of-strings field from a parsed JSON object. -/
def getStrArrField (fs : List (String × Jval)) (k : String) : Option (List String) :=
  match fs.lookup k with
  | some (.arr xs) => allStrs xs
  | _ => none

/-- Models `JSON.parse(landingPageCopyJson) as LandingCopy` inside
`buildLandingPage`: a parse failure or a non-object yields the empty copy,
and each field is kept only at the type the template consumes it at. -/
def parseLandingCopy (s : String) : LandingCopy :=
  match parseJson s with
  | some (.obj fs) =>
    { headline := getStrField fs "headline"
      subheadline := getStrField fs "subheadline"
      features := getStrArrField fs "features" }
  | _ => { headline := none, subheadline := none, features := none }

/-- One feature card of the orchestrator's landing-page template: the nested
template literal inside `features.map` in `buildLandingPage`. -/
def featureCard (i : Nat) (f : String) : String :=
  "\n        <div class=\"feature-card\">\n          <h3>" ++
    (["⚡", "🔧", "📦"].getD i "✨") ++ " " ++ f ++
    "</h3>\n          <p>Built with modern best practices for production environments.</p>\n        </div>"

/-- The orchestrator-local landing-page builder (`buildLandingPage` in the
orchestrator module): parses optional AI copy, falls back per field, and
interpolates the enhanced template. -/
def buildLandingPage (repoName : String) (analysis : RepoAnalysis)
    (landingPageCopyJson : Option String) (description : Option String) : String :=
  let copy : LandingCopy :=
    match landingPageCopyJson with
    | some s =>
      if s = "" then { headline := none, subheadline := none, features := none }
      else parseLandingCopy s
    | none => { headline := none, subheadline := none, features := none }
  let headline := jsOr copy.headline repoName
  let subheadline := jsOr copy.subheadline (jsOr description analysis.description)
  let features :=
    match copy.features with
    | some fs => fs
    | none => ["Fast and performant", "Production ready", "Easy to deploy"]
  let featuresHtml := String.join ((features.enum).map fun p => featureCard p.1 p.2)
  "<!DOCTYPE html>\n<html lang=\"en\">\n<head>\n  <meta charset=\"UTF-8\">\n" ++
    "  <meta name=\"viewport\" content=\"width=device-width, initial-scale=1.0\">\n  <title>" ++
    repoName ++ "</title>\n  <style>\n    *\x7bmargin:0;padding:0;box-sizing:border-box\x7d\n" ++
    "    body\x7bfont-family:-apple-system,BlinkMacSystemFont,\x27Segoe UI\x27,Roboto,sans-serif;line-height:1.6;color:#333;background:linear-gradient(135deg,#667eea 0%,#764ba2 100%);min-height:100vh\x7d\n" ++
    "    header\x7bbackground:rgba(0,0,0,.5);backdrop-filter:blur(10px);color:#fff;padding:1rem 0;position:sticky;top:0;z-index:100\x7d\n" ++
    "    nav\x7bmax-width:1200px;margin:0 auto;padding:0 2rem;display:flex;justify-content:space-between;align-items:center\x7d\n" ++
    "    nav h1\x7bfont-size:1.5rem;font-weight:700\x7d\n" ++
    "    .hero\x7bmax-width:1200px;margin:0 auto;padding:6rem 2rem;text-align:center;color:#fff\x7d\n" ++
    "    .hero h1\x7bfont-size:3.5rem;margin-bottom:1rem;font-weight:700\x7d\n" ++
    "    .hero p\x7bfont-size:1.25rem;margin-bottom:2rem;opacity:.9;max-width:600px;margin-left:auto;margin-right:auto\x7d\n" ++
    "    .badge\x7bdisplay:inline-block;background:rgba(255,255,255,.2);color:#fff;padding:.25rem .75rem;border-radius:9999px;font-size:.875rem;margin:.25rem\x7d\n" ++
    "    .cta\x7bdisplay:flex;gap:1rem;justify-content:center;margin-top:2rem;flex-wrap:wrap\x7d\n" ++
    "    .btn\x7bpadding:.75rem 2rem;font-size:1rem;border:none;border-radius:.5rem;cursor:pointer;font-weight:600;transition:all .3s;text-decoration:none;display:inline-block\x7d\n" ++
    "    .btn-primary\x7bbackground:#fff;color:#667eea\x7d\n" ++
    "    .btn-primary:hover\x7btransform:translateY(-2px);box-shadow:0 10px 20px rgba(0,0,0,.2)\x7d\n" ++
    "    .btn-secondary\x7bbackground:transparent;color:#fff;border:2px solid #fff\x7d\n" ++
    "    .btn-secondary:hover\x7bbackground:#fff;color:#667eea\x7d\n" ++
    "    .features\x7bbackground:#fff;padding:4rem 2rem\x7d\n" ++
    "    .features-container\x7bmax-width:1200px;margin:0 auto\x7d\n" ++
    "    .features h2\x7btext-align:center;font-size:2.5rem;margin-bottom:3rem;color:#333\x7d\n" ++
    "    .features-grid\x7bdisplay:grid;grid-template-columns:repeat(auto-fit,minmax(280px,1fr));gap:2rem\x7d\n" ++
    "    .feature-card\x7bpadding:2rem;background:#f8f9fa;border-radius:.5rem;box-shadow:0 4px 6px rgba(0,0,0,.1)\x7d\n" ++
    "    .feature-card h3\x7bfont-size:1.25rem;margin-bottom:.75rem;color:#667eea\x7d\n" ++
    "    .tech-stack\x7bbackground:#f8f9fa;padding:2rem;border-radius:.5rem;margin:2rem 0;text-align:center\x7d\n" ++
    "    footer\x7bbackground:rgba(0,0,0,.5);color:#fff;text-align:center;padding:2rem;margin-top:4rem\x7d\n" ++
    "  </style>\n</head>\n<body>\n  <header>\n    <nav>\n      <h1>" ++ repoName ++
    "</h1>\n      <div>\n" ++
    "        <a href=\"#features\" style=\"color:#fff;text-decoration:none;margin-left:2rem\">Features</a>\n" ++
    "        <a href=\"#tech\" style=\"color:#fff;text-decoration:none;margin-left:2rem\">Tech</a>\n" ++
    "      </div>\n    </nav>\n  </header>\n  <section class=\"hero\">\n    <h1>" ++ headline ++
    "</h1>\n    <p>" ++ subheadline ++ "</p>\n    <div>\n      <span class=\"badge\">" ++
    analysis.framework ++ "</span>\n      <span class=\"badge\">" ++ analysis.packageManager ++
    "</span>\n      <span class=\"badge\">" ++ analysis.backendType ++ "</span>\n      " ++
    (if analysis.hasDocker then "<span class=\"badge\">Docker</span>" else "") ++
    "\n    </div>\n    <div class=\"cta\">\n      <a href=\"https://github.com/" ++ repoName ++
    "\" class=\"btn btn-primary\">View on GitHub</a>\n" ++
    "      <a href=\"#features\" class=\"btn btn-secondary\">Learn More</a>\n    </div>\n" ++
    "  </section>\n  <section class=\"features\">\n    <div class=\"features-container\">\n" ++
    "      <h2 id=\"features\">Features</h2>\n      <div class=\"features-grid\">\n        " ++
    featuresHtml ++ "\n      </div>\n      <div id=\"tech\" class=\"tech-stack\">\n" ++
    "        <h3 style=\"margin-bottom:1rem;color:#333\">Tech Stack</h3>\n" ++
    "        <span class=\"badge\" style=\"background:#667eea\">" ++ analysis.framework ++
    "</span>\n        <span class=\"badge\" style=\"background:#667eea\">" ++
    analysis.packageManager ++
    "</span>\n        <span class=\"badge\" style=\"background:#667eea\">" ++
    analysis.backendType ++ "</span>\n        " ++
    (if analysis.hasDocker then "<span class=\"badge\" style=\"background:#667eea\">Docker</span>" else "") ++
    "\n      </div>\n    </div>\n  </section>\n  <footer>\n    <p>&copy; 2024 " ++ repoName ++
    ". Shipped with <a href=\"https://shipwright.dev\" style=\"color:#a78bfa\">Shipwright</a>.</p>\n" ++
    "  </footer>\n</body>\n</html>"

/-- JavaScript `description || analysis.description` for the standalone
landing generator. -/
def jsOrStrOpt (a : Option String) (b : String) : String := jsOr a b

/-- The standalone template landing-page generator
(`generateLandingPage` in src/lib/generators/landing.ts). -/
def generateLandingPage (repoName : String) (analysis : RepoAnalysis)
    (description : Option String) : String :=
    "<!DOCTYPE html>\n<html lang=\"en\">\n<head>\n  <meta charset=\"UTF-8\">\n" ++
    "  <meta name=\"viewport\" content=\"width=device-width, initial-scale=1.0\">\n  <title>" ++
    repoName ++ "</title>\n  <style>\n    * \x7b\n      margin: 0;\n      padding: 0;\n" ++
    "      box-sizing: border-box;\n    \x7d\n\n    body \x7b\n" ++
    "      font-family: -apple-system, BlinkMacSystemFont, \x27Segoe UI\x27, Roboto, Oxygen, Ubuntu, Cantarell, sans-serif;\n" ++
    "      line-height: 1.6;\n      color: #333;\n" ++
    "      background: linear-gradient(135deg, #667eea 0%, #764ba2 100%);\n" ++
    "      min-height: 100vh;\n    \x7d\n\n    header \x7b\n      background: rgba(0, 0, 0, 0.5);\n" ++
    "      backdrop-filter: blur(10px);\n      color: white;\n      padding: 1rem 0;\n" ++
    "      position: sticky;\n      top: 0;\n      z-index: 100;\n    \x7d\n\n    nav \x7b\n" ++
    "      max-width: 1200px;\n      margin: 0 auto;\n      padding: 0 2rem;\n" ++
    "      display: flex;\n      justify-content: space-between;\n      align-items: center;\n" ++
    "    \x7d\n\n    nav h1 \x7b\n      font-size: 1.5rem;\n      font-weight: bold;\n    \x7d\n\n    nav a \x7b\n" ++
    "      color: white;\n      text-decoration: none;\n      margin-left: 2rem;\n" ++
    "      transition: opacity 0.3s;\n    \x7d\n\n    nav a:hover \x7b\n      opacity: 0.8;\n    \x7d\n\n" ++
    "    .hero \x7b\n      max-width: 1200px;\n      margin: 0 auto;\n      padding: 6rem 2rem;\n" ++
    "      text-align: center;\n      color: white;\n    \x7d\n\n    .hero h1 \x7b\n" ++
    "      font-size: 3.5rem;\n      margin-bottom: 1rem;\n      font-weight: bold;\n    \x7d\n\n" ++
    "    .hero p \x7b\n      font-size: 1.25rem;\n      margin-bottom: 2rem;\n      opacity: 0.9;\n" ++
    "    \x7d\n\n    .cta-buttons \x7b\n      display: flex;\n      gap: 1rem;\n" ++
    "      justify-content: center;\n      margin-top: 2rem;\n    \x7d\n\n    .btn \x7b\n" ++
    "      padding: 0.75rem 2rem;\n      font-size: 1rem;\n      border: none;\n" ++
    "      border-radius: 0.5rem;\n      cursor: pointer;\n      font-weight: 600;\n" ++
    "      transition: all 0.3s;\n      text-decoration: none;\n      display: inline-block;\n" ++
    "    \x7d\n\n    .btn-primary \x7b\n      background: white;\n      color: #667eea;\n    \x7d\n\n" ++
    "    .btn-primary:hover \x7b\n      transform: translateY(-2px);\n" ++
    "      box-shadow: 0 10px 20px rgba(0, 0, 0, 0.2);\n    \x7d\n\n    .btn-secondary \x7b\n" ++
    "      background: transparent;\n      color: white;\n      border: 2px solid white;\n    \x7d\n\n" ++
    "    .btn-secondary:hover \x7b\n      background: white;\n      color: #667eea;\n    \x7d\n\n" ++
    "    .features \x7b\n      background: white;\n      padding: 4rem 2rem;\n    \x7d\n\n" ++
    "    .features-container \x7b\n      max-width: 1200px;\n      margin: 0 auto;\n    \x7d\n\n" ++
    "    .features h2 \x7b\n      text-align: center;\n      font-size: 2.5rem;\n" ++
    "      margin-bottom: 3rem;\n      color: #333;\n    \x7d\n\n    .features-grid \x7b\n" ++
    "      display: grid;\n      grid-template-columns: repeat(auto-fit, minmax(300px, 1fr));\n" ++
    "      gap: 2rem;\n    \x7d\n\n    .feature-card \x7b\n      padding: 2rem;\n" ++
    "      background: #f8f9fa;\n      border-radius: 0.5rem;\n" ++
    "      box-shadow: 0 4px 6px rgba(0, 0, 0, 0.1);\n    \x7d\n\n    .feature-card h3 \x7b\n" ++
    "      font-size: 1.5rem;\n      margin-bottom: 1rem;\n      color: #667eea;\n    \x7d\n\n" ++
    "    .feature-card p \x7b\n      color: #666;\n    \x7d\n\n    .tech-stack \x7b\n" ++
    "      background: #f8f9fa;\n      padding: 2rem;\n      border-radius: 0.5rem;\n" ++
    "      margin: 2rem 0;\n    \x7d\n\n    .tech-stack h3 \x7b\n      margin-bottom: 1rem;\n" ++
    "      color: #333;\n    \x7d\n\n    .tech-badges \x7b\n      display: flex;\n      gap: 0.5rem;\n" ++
    "      flex-wrap: wrap;\n    \x7d\n\n    .badge \x7b\n      background: #667eea;\n      color: white;\n" ++
    "      padding: 0.5rem 1rem;\n      border-radius: 0.25rem;\n      font-size: 0.875rem;\n" ++
    "      font-weight: 600;\n    \x7d\n\n    footer \x7b\n      background: rgba(0, 0, 0, 0.5);\n" ++
    "      color: white;\n      text-align: center;\n      padding: 2rem;\n" ++
    "      margin-top: 4rem;\n    \x7d\n  </style>\n</head>\n<body>\n  <header>\n    <nav>\n      <h1>" ++
    repoName ++ "</h1>\n      <div>\n        <a href=\"#features\">Features</a>\n" ++
    "        <a href=\"#tech\">Tech Stack</a>\n      </div>\n    </nav>\n  </header>\n\n" ++
    "  <section class=\"hero\">\n    <h1>" ++ repoName ++ "</h1>\n    <p>" ++
    (jsOrStrOpt description analysis.description) ++ "</p>\n    <div class=\"cta-buttons\">\n" ++
    "      <a href=\"https://github.com\" class=\"btn btn-primary\">View on GitHub</a>\n" ++
    "      <a href=\"#\" class=\"btn btn-secondary\">Get Started</a>\n    </div>\n  </section>\n\n" ++
    "  <section class=\"features\">\n    <div class=\"features-container\">\n" ++
    "      <h2 id=\"features\">Features</h2>\n      <div class=\"features-grid\">\n" ++
    "        <div class=\"feature-card\">\n          <h3>⚡ Fast</h3>\n" ++
    "          <p>Optimized for performance with modern best practices</p>\n        </div>\n" ++
    "        <div class=\"feature-card\">\n          <h3>🔧 Flexible</h3>\n" ++
    "          <p>Easy to configure and extend for your needs</p>\n        </div>\n" ++
    "        <div class=\"feature-card\">\n          <h3>📦 Production Ready</h3>\n" ++
    "          <p>Deploy with confidence to production environments</p>\n        </div>\n" ++
    "      </div>\n\n      <div id=\"tech\" class=\"tech-stack\">\n        <h3>Tech Stack</h3>\n" ++
    "        <div class=\"tech-badges\">\n          <span class=\"badge\">" ++
    analysis.framework ++ "</span>\n          <span class=\"badge\">" ++ analysis.packageManager ++
    "</span>\n          <span class=\"badge\">" ++ analysis.backendType ++ "</span>\n          " ++
    (if analysis.hasDocker then "<span class=\"badge\">Docker</span>" else "") ++
    "\n        </div>\n      </div>\n    </div>\n  </section>\n\n  <footer>\n    <p>&copy; 2024 " ++
    repoName ++ ". Built with Shipwright.</p>\n  </footer>\n</body>\n</html>"


-- ─── Repository analyzer (RepoAnalyzer, second module of vercel-config.ts) ────

/-- Serializes the modelled manifest to JSON text, as
`JSON.stringify(packageJson || \x7b\x7d)` does in `checkMissingConfigs`.  The
modelled fields are emitted in the order dependencies, devDependencies,
scripts, skipping absent ones. -/
def manifestJval (p : PackageJson) : Jval :=
  .obj
    ((match p.dependencies with
      | some d => [("dependencies", Jval.obj (d.map fun kv => (kv.1, Jval.str kv.2)))]
      | none => []) ++
     (match p.devDependencies with
      | some d => [("devDependencies", Jval.obj (d.map fun kv => (kv.1, Jval.str kv.2)))]
      | none => []) ++
     (match p.scripts with
      | some d => [("scripts", Jval.obj (d.map fun kv => (kv.1, Jval.str kv.2)))]
      | none => []))

/-- Compact JSON text of the manifest (or of the empty object when absent). -/
def stringifyManifest : Option PackageJson → String
  | none => renderC (.obj [])
  | some p => renderC (manifestJval p)

/-- Looks a package name up in the merged dependency map
`\x7b...dependencies, ...devDependencies\x7d` (spread: devDependencies wins). -/
def mergedDepLookup (p : PackageJson) (k : String) : Option String :=
  match (p.devDependencies.getD []).lookup k with
  | some v => some v
  | none => (p.dependencies.getD []).lookup k

/-- JavaScript truthiness of `deps.k`: present with a non-empty version. -/
def depTruthy (p : PackageJson) (k : String) : Bool :=
  match mergedDepLookup p k with
  | some v => v != ""
  | none => false

/-- Framework detection (`detectFramework`): fixed priority list, first
match wins; `"Unknown"` when there is no manifest or it has neither
dependency field; `"Node.js"` when nothing matches. -/
def detectFramework : Option PackageJson → String
  | none => "Unknown"
  | some p =>
    if p.dependencies.isNone && p.devDependencies.isNone then "Unknown"
    else if depTruthy p "next" then "Next.js"
    else if depTruthy p "react" then "React"
    else if depTruthy p "vue" then "Vue"
    else if depTruthy p "svelte" then "Svelte"
    else if depTruthy p "nuxt" then "Nuxt"
    else if depTruthy p "gatsby" then "Gatsby"
    else if depTruthy p "remix" then "Remix"
    else if depTruthy p "astro" then "Astro"
    else "Node.js"

/-- Backend-kind detection (`detectBackendType`). -/
def detectBackendType : Option PackageJson → String
  | none => "Frontend"
  | some p =>
    if p.dependencies.isNone && p.devDependencies.isNone then "Frontend"
    else if depTruthy p "express" then "Express"
    else if depTruthy p "fastify" then "Fastify"
    else if depTruthy p "hapi" then "Hapi"
    else if depTruthy p "koa" then "Koa"
    else if depTruthy p "@nestjs/core" then "NestJS"
    else if depTruthy p "fastapi" then "FastAPI"
    else if depTruthy p "rails" then "Rails"
    else if depTruthy p "django" then "Django"
    else "Frontend"

/-- Package-manager detection (`detectPackageManager`): a constant stub. -/
def detectPackageManager : Option PackageJson → String
  | none => "npm"
  | some _ => "npm"

/-- The value of `packageJson?.scripts?.k`. -/
def scriptVal (p : Option PackageJson) (k : String) : Option String :=
  match p with
  | some pj =>
    match pj.scripts with
    | some s => s.lookup k
    | none => none
  | none => none

/-- JavaScript truthiness of `packageJson?.scripts?.k`. -/
def scriptTruthy (p : Option PackageJson) (k : String) : Bool :=
  match scriptVal p k with
  | some v => v != ""
  | none => false

/-- Helper for `splitOnNl`: accumulates the current segment (reversed). -/
def splitOnNlAux : List Char → List Char → List String
  | [], acc => [String.mk acc.reverse]
  | c :: cs, acc =>
    if c = '\n' then String.mk acc.reverse :: splitOnNlAux cs []
    else splitOnNlAux cs (c :: acc)

/-- JavaScript `content.split("\n")` (the only split the analyzer performs). -/
def splitOnNl (s : String) : List String :=
  splitOnNlAux s.data []

/-- Characters JavaScript `\s` matches within a single line (the source
splits on newlines first, so the ASCII set suffices). -/
def jsSpaceChar (c : Char) : Bool :=
  c = ' ' || c = '\t' || c = '\n' || c = '\r' || c = '\x0b' || c = '\x0c'

/-- Characters allowed after the first one in an env variable name
(`[A-Z0-9_]`). -/
def envKeyChar (c : Char) : Bool :=
  ('A' ≤ c && c ≤ 'Z') || ('0' ≤ c && c ≤ '9') || c = '_'

/-- Applies the line pattern of `detectEnvVars`
(`/^([A-Z_][A-Z0-9_]*)\s*=/`), returning the captured variable name. -/
def envLineName (line : String) : Option String :=
  match line.data with
  | [] => none
  | c :: rest =>
    if ('A' ≤ c && c ≤ 'Z') || c = '_' then
      match (rest.dropWhile envKeyChar).dropWhile jsSpaceChar with
      | '=' :: _ => some (String.mk (c :: rest.takeWhile envKeyChar))
      | _ => none
    else none

/-- Env var detection (`detectEnvVars`) over the fetched contents of
`.env.example`, `.env.local`, `.env` in that order: matching line names are
collected into a set (insertion-ordered, deduplicated). -/
def detectEnvVars (files : List (Option String)) : List String :=
  files.foldl
    (fun vars file =>
      match file with
      | none => vars
      | some content =>
        (splitOnNl content).foldl
          (fun vars line =>
            match envLineName line with
            | some name => if vars.contains name then vars else vars ++ [name]
            | none => vars)
          vars)
    []

/-- Missing-config detection (`checkMissingConfigs`). -/
def checkMissingConfigs (p : Option PackageJson) (framework : String)
    (hasDocker : Bool) : List String :=
  (if scriptTruthy p "build" then [] else ["build script"]) ++
  (if scriptTruthy p "start" then [] else ["start script"]) ++
  (if !hasDocker && !scriptTruthy p "dev" then ["dev script"] else []) ++
  (if framework = "Next.js" then
    (if strContains (stringifyManifest p) "next.config" then [] else ["next.config.js"])
  else [])

/-- Parameter record of `calculateRiskScore`. -/
structure RiskParams where
  framework : String
  buildScript : Option String
  hasDocker : Bool
  envVarsCount : Nat
  missingConfigsCount : Nat
deriving Repr, DecidableEq

/-- JavaScript falsiness of an optional string (`!params.buildScript`). -/
def jsFalsyStrOpt : Option String → Bool
  | none => true
  | some s => s == ""

/-- Risk scoring (`calculateRiskScore`): weighted contributions clamped by
`Math.min(score, 100)`. -/
def calculateRiskScore (p : RiskParams) : Nat :=
  let score := 0
  let score := if jsFalsyStrOpt p.buildScript then score + 20 else score
  let score := if !p.hasDocker then score + 10 else score
  let score := if p.missingConfigsCount > 0 then score + p.missingConfigsCount * 5 else score
  let score := if p.envVarsCount > 5 then score + 15 else score
  min score 100

/-- The analyzer (`RepoAnalyzer.analyze`) as a pure function of the fetched
inputs: the parsed manifest (already `null` on fetch or parse failure), the
`Dockerfile` fetch result, and the three env file fetch results. -/
def analyze (pkg : Option PackageJson) (dockerfile : Option String)
    (envExample envLocal envFile : Option String) : RepoAnalysis :=
  let hasDocker := dockerfile.isSome
  let envVars := detectEnvVars [envExample, envLocal, envFile]
  let framework := detectFramework pkg
  let packageManager := detectPackageManager pkg
  let backendType := detectBackendType pkg
  let buildScript :=
    match scriptVal pkg "build" with
    | some v => if v = "" then none else some v
    | none => none
  let missingConfigs := checkMissingConfigs pkg framework hasDocker
  let riskScore := calculateRiskScore
    { framework := framework, buildScript := buildScript, hasDocker := hasDocker,
      envVarsCount := envVars.length, missingConfigsCount := missingConfigs.length }
  { framework := framework, packageManager := packageManager, backendType := backendType,
    hasDocker := hasDocker, envVarsDetected := envVars, buildScript := buildScript,
    missingConfigs := missingConfigs, deploymentRiskScore := riskScore,
    description := framework ++ " project with " ++ packageManager ++ " and " ++ backendType }

-- ─── Template generators (src/lib/generators) ─────────────────────────────────

/-- Output-directory lookup table (`getOutputDirectory`). -/
def getOutputDirectory (framework : String) : String :=
  if framework = "Next.js" then ".next"
  else if framework = "React" then "dist"
  else if framework = "Vite" then "dist"
  else if framework = "Gatsby" then "public"
  else if framework = "Nuxt" then "dist"
  else "dist"

/-- Platform-identifier lookup table (`getFrameworkConfig`). -/
def getFrameworkConfig (framework : String) : String :=
  if framework = "Next.js" then "nextjs"
  else if framework = "React" then "react"
  else if framework = "Vue" then "vue"
  else if framework = "Svelte" then "svelte"
  else if framework = "Astro" then "astro"
  else ""

/-- The three fixed keys `generateVercelConfig` assigns when building its
config object. -/
def generateVercelConfigBase (analysis : RepoAnalysis) : List (String × Jval) :=
  [("buildCommand", Jval.str
      (match analysis.buildScript with
       | some bs =>
         if bs = "" then "npm run build"
         else "npm run " ++ replaceFirst bs "npm run " ""
       | none => "npm run build")),
   ("outputDirectory", Jval.str (getOutputDirectory analysis.framework)),
   ("framework", Jval.str (getFrameworkConfig analysis.framework))]

/-- The config object `generateVercelConfig` stringifies: the three fixed
keys, plus an `env` object exactly when env vars were detected. -/
def generateVercelConfigObj (analysis : RepoAnalysis) : List (String × Jval) :=
  if analysis.envVarsDetected.length > 0 then
    generateVercelConfigBase analysis ++
      [("env", Jval.obj (analysis.envVarsDetected.map fun v => (v, Jval.str ("@" ++ v))))]
  else generateVercelConfigBase analysis

/-- The lookup-table config generator (`generateVercelConfig`). -/
def generateVercelConfig (analysis : RepoAnalysis) : String :=
  renderP "" (.obj (generateVercelConfigObj analysis))

/-- The `vercel.json` fallback generator (`generateVercelJsonFile`): empty
output unless the framework is Next.js, else a fixed config whose
`buildCommand` is present exactly when a build script exists. -/
def generateVercelJsonFile (analysis : RepoAnalysis) : String :=
  if analysis.framework ≠ "Next.js" then ""
  else
    renderP "" (.obj
      ((if jsFalsyStrOpt analysis.buildScript then []
        else [("buildCommand", Jval.str "npm run build")]) ++
       [("outputDirectory", Jval.str ".next"),
        ("installCommand", Jval.str "npm install"),
        ("devCommand", Jval.str "npm run dev"),
        ("framework", Jval.str "nextjs")]))

/-- Package-script suggestions (`generatePackageJsonScripts`). -/
def generatePackageJsonScripts (analysis : RepoAnalysis) : List (String × String) :=
  if jsFalsyStrOpt analysis.buildScript then
    if analysis.framework = "Next.js" then
      [("build", "next build"), ("start", "next start"), ("dev", "next dev")]
    else if analysis.framework = "React" then
      [("build", "vite build"), ("start", "npm run build && npm run preview"), ("dev", "vite")]
    else []
  else []

/-- Value-hint selection (`getEnvVarHint`): first matching substring
category wins. -/
def getEnvVarHint (envVar : String) : String :=
  let lowerVar := jsToLower envVar
  if strContains lowerVar "key" then "your-key-here"
  else if strContains lowerVar "secret" then "your-secret-here"
  else if strContains lowerVar "url" || strContains lowerVar "uri" then "https://example.com"
  else if strContains lowerVar "token" then "your-token-here"
  else if strContains lowerVar "id" then "your-id-here"
  else if strContains lowerVar "password" || strContains lowerVar "pwd" then "your-password-here"
  else if strContains lowerVar "host" || strContains lowerVar "db" then "localhost"
  else if strContains lowerVar "port" then "3000"
  else if strContains lowerVar "env" then "development"
  else ""

/-- Env template generator (`generateEnvTemplate`). -/
def generateEnvTemplate (analysis : RepoAnalysis) : String :=
  if analysis.envVarsDetected.length = 0 then
    "# Add your environment variables here\n"
  else
    "# Environment variables\n" ++
    "# Copy this file to .env.local and fill in the values\n\n" ++
    String.intercalate "\n"
      (analysis.envVarsDetected.map fun envVar => envVar ++ "=" ++ getEnvVarHint envVar) ++
    "\n"

/-- Modelled from the spec: the README template generator
(src/lib/generators/readme.ts is not among the sources; only its import
sites are).  Per the spec it is a string template interpolating the
analysis fields and the optional caller-supplied description.  No claim's
verdict depends on this body: the orchestrator calls this same function
for the fallback README. -/
def generateReadme (repoName : String) (analysis : RepoAnalysis)
    (description : Option String) : String :=
  "# " ++ repoName ++ "\n\n" ++ jsOr description analysis.description ++
  "\n\n## Tech Stack\n- Framework: " ++ analysis.framework ++
  "\n- Package Manager: " ++ analysis.packageManager ++
  "\n- Backend: " ++ analysis.backendType ++ "\n"

-- ─── Content agent (src/lib/agents/openai-agent.ts) ───────────────────────────

/-- Fallback README of the content agent (`generateFallbackReadme`). -/
def generateFallbackReadme (analysis : RepoAnalysis) (repoName : String) : String :=
  "# " ++ repoName ++ "\n\n" ++ analysis.description ++
  "\n\n## Tech Stack\n- **Framework**: " ++ analysis.framework ++
  "\n- **Package Manager**: " ++ analysis.packageManager ++
  "\n- **Backend**: " ++ analysis.backendType ++
  "\n\n## Getting Started\n\n```bash\n" ++ analysis.packageManager ++ " install\n" ++
  analysis.packageManager ++ " run dev\n```\n\n## Deployment\n\n" ++
  "Deploy to Vercel with one click. Ensure all environment variables are configured.\n"

/-- Deterministic fallback of the content agent (`generateFallbackResult`),
built purely from the analysis and the repository name. -/
def generateFallbackResult (analysis : RepoAnalysis) (repoName : String) : OpenAIAgentResult :=
  { readme := generateFallbackReadme analysis repoName
    landingPageCopy := renderC (.obj
      [("headline", .str ("Ship " ++ repoName ++ " to production")),
       ("subheadline", .str (analysis.framework ++ " app ready for deployment")),
       ("features", .arr [.str "Fast deployment", .str "Production ready",
                          .str "Easy configuration"])])
    deploymentRecommendations :=
      ["Ensure all environment variables are configured",
       "Run `" ++ analysis.packageManager ++ " run build` before deploying",
       "Set NODE_ENV=production in your deployment environment"]
    enhancedDescription := analysis.description }

/-- One tool call requested by the model. -/
structure ToolCall where
  name : String
  args : String
deriving Repr, DecidableEq

/-- One model completion: optional free text and requested tool calls. -/
structure AgentResponse where
  content : Option String
  toolCalls : List ToolCall
deriving Repr, DecidableEq

/-- How the completion loop of `runOpenAIAgent` exits: a tool-call-free
final answer after some number of rounds, or the iteration cap. -/
inductive LoopExit where
  | finalAnswer (content : String) (rounds : Nat)
  | maxedOut (rounds : Nat)
deriving Repr, DecidableEq

/-- The iteration cap of the content agent (`maxIterations`). -/
def maxIterationsCap : Nat := 8

/-- The completion loop of `runOpenAIAgent`: round `i` receives the model's
response `responses i`; a response without tool calls ends the loop with
its text (`message.content || ""`), and exhausting the cap exits
`maxedOut`.  Tool executions only extend the transcript, which the
response function already accounts for, so they do not appear here. -/
def agentLoopAux (responses : Nat → AgentResponse) : Nat → Nat → LoopExit
  | 0, round => .maxedOut round
  | fuel + 1, round =>
    let resp := responses round
    if resp.toolCalls.isEmpty then .finalAnswer (resp.content.getD "") (round + 1)
    else agentLoopAux responses fuel (round + 1)

/-- The content agent (`runOpenAIAgent`) over a given response sequence,
with the free-text response parser abstracted as a parameter (its output
shape does not affect the loop's control flow). -/
def runOpenAIAgentModel (parse : String → RepoAnalysis → String → OpenAIAgentResult)
    (responses : Nat → AgentResponse) (analysis : RepoAnalysis) (repo : String) :
    OpenAIAgentResult :=
  match agentLoopAux responses maxIterationsCap 0 with
  | .finalAnswer c _ => parse c analysis repo
  | .maxedOut _ => generateFallbackResult analysis repo

/-- Number of completion rounds the loop executes (the final value of the
source's `iterations` counter). -/
def agentRounds (responses : Nat → AgentResponse) : Nat :=
  match agentLoopAux responses maxIterationsCap 0 with
  | .finalAnswer _ r => r
  | .maxedOut r => r

-- ─── Orchestrator (runOrchestrator) ───────────────────────────────────────────

/-- The provider tag rendered into the merge step's detail text. -/
def Provider.label : Provider → String
  | .openai => "openai"
  | .blackbox => "blackbox"
  | .template => "template"

/-- Default recommendations built by the orchestrator
(`buildDefaultRecommendations`): rule-derived entries padded to three with
fixed fillers indexed by the current length. -/
def buildDefaultRecommendations (analysis : RepoAnalysis) : List String :=
  let recs :=
    (if analysis.missingConfigs.contains "build script" then
      ["Add a build script to package.json: \"build\": \"" ++
        (if analysis.framework = "Next.js" then "next build" else "vite build") ++ "\""]
    else []) ++
    (if analysis.envVarsDetected.length > 0 then
      ["Configure " ++ toString analysis.envVarsDetected.length ++
        " environment variable(s) in your deployment platform"]
    else []) ++
    (if !analysis.hasDocker then
      ["Consider adding a Dockerfile for containerized deployments"]
    else []) ++
    (if analysis.deploymentRiskScore > 50 then
      ["High risk score detected — review missing configurations before deploying"]
    else [])
  let defaults :=
    ["Set NODE_ENV=production in your deployment environment",
     "Enable automatic deployments from your main branch",
     "Configure health check endpoints for production monitoring"]
  (recs ++ defaults.drop recs.length).take 3

/-- Result and callback trace of one orchestration run: `trace` lists the
step snapshots passed to `onStep` by `addStep`, `completeStep` and
`failStep`, in order. -/
structure OrchestratorRun where
  result : Except String AgentResult
  trace : List AgentStep
deriving Repr

/-- The orchestrator (`runOrchestrator`) as a pure function of the three
awaited outcomes (analysis, code-insight agent, content agent), each
`Except` carrying the thrown error's text when the call failed.  Mirrors
the source's step bookkeeping and merge rules. -/
def runOrchestrator (repo : String) (description : Option String)
    (analysisOutcome : Except String RepoAnalysis)
    (blackboxOutcome : Except String BlackboxAgentResult)
    (openaiOutcome : Except String OpenAIAgentResult) : OrchestratorRun :=
  let analysisStep : AgentStep :=
    { id := "1", label := "Analyzing repository structure", status := .running, detail := none }
  match analysisOutcome with
  | .error e =>
    let failed : AgentStep := { analysisStep with status := .error, detail := some e }
    { result := .error ("Repository analysis failed: " ++ e)
      trace := [analysisStep, failed] }
  | .ok analysis =>
    let analysisDone : AgentStep :=
      { analysisStep with
        status := .done
        detail := some (analysis.framework ++ " · Risk: " ++
          toString analysis.deploymentRiskScore ++ "%") }
    let blackboxStep : AgentStep :=
      { id := "2", label := "Blackbox AI: Deep code analysis", status := .running, detail := none }
    let blackboxRes := blackboxOutcome.toOption
    let blackboxFinal : AgentStep :=
      match blackboxOutcome with
      | .ok _ => { blackboxStep with status := .done, detail := some "Config & env template generated" }
      | .error e =>
        { blackboxStep with status := .error, detail := some ("Falling back to templates: " ++ e) }
    let openaiStep : AgentStep :=
      { id := "3", label := "OpenAI: Generating README & landing page", status := .running, detail := none }
    let openaiRes := openaiOutcome.toOption
    let openaiFinal : AgentStep :=
      match openaiOutcome with
      | .ok _ => { openaiStep with status := .done, detail := some "README & landing page ready" }
      | .error e =>
        { openaiStep with status := .error, detail := some ("Falling back to templates: " ++ e) }
    let mergeStep : AgentStep :=
      { id := "4", label := "Assembling final output", status := .running, detail := none }
    let provider : Provider :=
      if openaiRes.isSome && blackboxRes.isSome then .openai
      else if openaiRes.isSome then .openai
      else if blackboxRes.isSome then .blackbox
      else .template
    let aiReadme := jsOr (openaiRes.map (·.readme)) (generateReadme repo analysis description)
    let aiLandingPage :=
      buildLandingPage repo analysis (openaiRes.map (·.landingPageCopy)) description
    let vercelJson := jsOr (blackboxRes.map (·.vercelConfig)) (generateVercelJsonFile analysis)
    let envTemplate := jsOr (blackboxRes.map (·.envTemplate)) (generateEnvTemplate analysis)
    let packageJsonScripts :=
      match blackboxRes with
      | some b =>
        if b.suggestedScripts.length > 0 then b.suggestedScripts
        else generatePackageJsonScripts analysis
      | none => generatePackageJsonScripts analysis
    let deploymentRecommendations :=
      match openaiRes with
      | some o => o.deploymentRecommendations
      | none => buildDefaultRecommendations analysis
    let mergeDone : AgentStep :=
      { mergeStep with status := .done, detail := some ("Generated via " ++ provider.label) }
    { result := .ok
        { analysis := analysis, aiReadme := aiReadme, aiLandingPage := aiLandingPage,
          vercelJson := vercelJson, packageJsonScripts := packageJsonScripts,
          envTemplate := envTemplate, deploymentRecommendations := deploymentRecommendations,
          steps := [analysisDone, blackboxFinal, openaiFinal, mergeDone], provider := provider }
      trace := [analysisStep, analysisDone, blackboxStep, blackboxFinal,
                openaiStep, openaiFinal, mergeStep, mergeDone] }


-- ─── Shared concrete inputs for the theorems ──────────────────────────────────

/-- The manifest of the spec's concrete scenario:
`\x7b"dependencies":\x7b"next":"14.0.0"\x7d\x7d`. -/
def pkgNextOnly : PackageJson :=
  { dependencies := some [("next", "14.0.0")], devDependencies := none, scripts := none }

/-- The analysis the analyzer derives for that manifest with no Dockerfile
and no env files. -/
def analysisNext : RepoAnalysis :=
  analyze (some pkgNextOnly) none none none none

-- ─── Theorems ─────────────────────────────────────────────────────────────────

/-- C9.  For every input to the risk-score computation, the resulting
deployment risk score is an integer in the closed interval [0, 100]. -/
theorem c9_risk_score_bounds (p : RiskParams) :
    0 ≤ calculateRiskScore p ∧ calculateRiskScore p ≤ 100 :=
  ⟨Nat.zero_le _, by unfold calculateRiskScore; exact Nat.min_le_right _ _⟩

/-- C8.  For the env file content `API_KEY=123\nmalformed line\nDB_HOST=localhost`,
detection yields exactly API_KEY and DB_HOST (the malformed line contributes
nothing), and the first-match hint categories give `your-key-here` for
API_KEY and `localhost` for DB_HOST. -/
theorem c8_env_detection_scenario :
    detectEnvVars [some "API_KEY=123\nmalformed line\nDB_HOST=localhost", none, none] =
      ["API_KEY", "DB_HOST"] ∧
    getEnvVarHint "API_KEY" = "your-key-here" ∧
    getEnvVarHint "DB_HOST" = "localhost" := by
  decide

/-- C4 counterexample.  For the manifest `\x7b"dependencies":\x7b"next":"14.0.0"\x7d\x7d`
with no Dockerfile and no env files, the deployment risk score is not the
claimed 40 (it is 20 + 10 + 4·5 = 50). -/
theorem c4_counterexample :
    (analyze (some pkgNextOnly) none none none none).deploymentRiskScore ≠ 40 := by
  decide

/-- C4 amended.  For that same input the analysis has framework Next.js, no
Docker, no env vars, missing configs exactly build/start/dev script and
next.config.js — and risk score 50. -/
theorem c4_next_manifest_scenario :
    analyze (some pkgNextOnly) none none none none =
      { framework := "Next.js", packageManager := "npm", backendType := "Frontend",
        hasDocker := false, envVarsDetected := [], buildScript := none,
        missingConfigs := ["build script", "start script", "dev script", "next.config.js"],
        deploymentRiskScore := 50,
        description := "Next.js project with npm and Frontend" } := by
  decide

/-- C6 counterexample.  A manifest that exists but has neither a
`dependencies` nor a `devDependencies` field matches no framework marker,
yet detection returns "Unknown", not the claimed "Node.js". -/
theorem c6_counterexample :
    detectFramework (some { dependencies := none, devDependencies := none, scripts := some [("test", "jest")] }) ≠ "Node.js" ∧
    detectFramework (some { dependencies := none, devDependencies := none, scripts := some [("test", "jest")] }) = "Unknown" := by
  decide


/-- Helper: an append whose left part is non-empty is a non-empty string. -/
lemma str_append_ne_empty_left (s t : String) (h : s ≠ "") : s ++ t ≠ "" := by
  intro hc
  apply h
  apply String.ext
  have hdata := congrArg String.data hc
  rw [String.data_append] at hdata
  exact (List.append_eq_nil.mp hdata).1

/-- Helper: pretty-rendering a non-empty JSON object never yields the empty
string (it opens with a brace). -/
lemma renderP_obj_cons_ne_empty (pad : String) (f : String × Jval)
    (fs : List (String × Jval)) : renderP pad (.obj (f :: fs)) ≠ "" := by
  simp only [renderP]
  apply str_append_ne_empty_left
  apply str_append_ne_empty_left
  apply str_append_ne_empty_left
  apply str_append_ne_empty_left
  decide

/-- Sample analysis with a table-recognized non-Next.js framework and a
detected env var. -/
def analysisReactEnv : RepoAnalysis :=
  { framework := "React", packageManager := "npm", backendType := "Frontend",
    hasDocker := false, envVarsDetected := ["API_KEY"], buildScript := none,
    missingConfigs := [], deploymentRiskScore := 30,
    description := "React project with npm and Frontend" }

/-- C5 counterexample.  "React" is recognized by both lookup tables and an
env var was detected, yet the fallback Vercel generator emits the empty
config — refuting "empty output exactly when the framework is
unrecognized" and "env placeholders included exactly when envVarsDetected
is non-empty". -/
theorem c5_counterexample :
    getFrameworkConfig analysisReactEnv.framework ≠ "" ∧
    analysisReactEnv.envVarsDetected ≠ [] ∧
    generateVercelJsonFile analysisReactEnv = "" := by
  decide

/-- C5 amended.  `generateVercelJsonFile` is empty exactly when the
framework is not Next.js and never carries env placeholders, while the
lookup-table generator `generateVercelConfig` maps the framework through
`getOutputDirectory`/`getFrameworkConfig`, is never empty, and includes an
`env` object exactly when env vars were detected. -/
theorem c5_vercel_config_generators (analysis : RepoAnalysis) :
    ((generateVercelJsonFile analysis = "") ↔ analysis.framework ≠ "Next.js") ∧
    generateVercelConfig analysis ≠ "" ∧
    (generateVercelConfigObj analysis).lookup "outputDirectory" =
      some (.str (getOutputDirectory analysis.framework)) ∧
    (generateVercelConfigObj analysis).lookup "framework" =
      some (.str (getFrameworkConfig analysis.framework)) ∧
    (((generateVercelConfigObj analysis).lookup "env").isSome ↔
      analysis.envVarsDetected ≠ []) := by
  refine ⟨?_, ?_, ?_, ?_, ?_⟩
  · by_cases hf : analysis.framework = "Next.js"
    · have hne : generateVercelJsonFile analysis ≠ "" := by
        unfold generateVercelJsonFile
        rw [if_neg (by simp [hf])]
        cases hbs : jsFalsyStrOpt analysis.buildScript <;>
          simp [hbs] <;> exact renderP_obj_cons_ne_empty _ _ _
      simp [hne, hf]
    · simp [generateVercelJsonFile, hf]
  · unfold generateVercelConfig generateVercelConfigObj generateVercelConfigBase
    split <;> exact renderP_obj_cons_ne_empty _ _ _
  · unfold generateVercelConfigObj generateVercelConfigBase
    split <;> rfl
  · unfold generateVercelConfigObj generateVercelConfigBase
    split <;> rfl
  · cases henv : analysis.envVarsDetected with
    | nil => simp [generateVercelConfigObj, generateVercelConfigBase, henv, List.lookup]
    | cons a as => simp [generateVercelConfigObj, generateVercelConfigBase, henv, List.lookup]

/-- C6 amended.  First-match priority for framework detection: a manifest
whose merged dependency map has non-empty-version entries for both `next`
and `react` resolves to "Next.js"; a manifest with at least one dependency
field but no truthy framework marker resolves to "Node.js"; "Unknown"
arises exactly for a missing manifest or one lacking both dependency
fields. -/
theorem c6_framework_priority (p : PackageJson) :
    (depTruthy p "next" = true → depTruthy p "react" = true →
      detectFramework (some p) = "Next.js") ∧
    ((p.dependencies.isSome || p.devDependencies.isSome) = true →
      (depTruthy p "next" || depTruthy p "react" || depTruthy p "vue" ||
        depTruthy p "svelte" || depTruthy p "nuxt" || depTruthy p "gatsby" ||
        depTruthy p "remix" || depTruthy p "astro") = false →
      detectFramework (some p) = "Node.js") ∧
    detectFramework none = "Unknown" ∧
    (p.dependencies = none → p.devDependencies = none →
      detectFramework (some p) = "Unknown") := by
  refine ⟨?_, ?_, rfl, ?_⟩
  · intro hn _hr
    have hguard : (p.dependencies.isNone && p.devDependencies.isNone) = false := by
      cases hd : p.dependencies <;> cases hdd : p.devDependencies <;>
        simp_all [depTruthy, mergedDepLookup]
    simp [detectFramework, hguard, hn]
  · intro hfield hmarkers
    simp only [Bool.or_eq_false_iff] at hmarkers
    obtain ⟨⟨⟨⟨⟨⟨⟨h1, h2⟩, h3⟩, h4⟩, h5⟩, h6⟩, h7⟩, h8⟩ := hmarkers
    have hguard : (p.dependencies.isNone && p.devDependencies.isNone) = false := by
      cases hd : p.dependencies <;> cases hdd : p.devDependencies <;> simp_all
    simp [detectFramework, hguard, h1, h2, h3, h4, h5, h6, h7, h8]
  · intro hd hdd
    simp [detectFramework, hd, hdd]

/-- Witness for C6: the amended theorem applied at concrete manifests. -/
theorem c6_framework_priority_witness :
    detectFramework (some { dependencies := some [("next", "14.0.0"), ("react", "18.2.0")], devDependencies := none, scripts := none }) = "Next.js" ∧
    detectFramework (some { dependencies := some [("lodash", "4.17.21")], devDependencies := none, scripts := none }) = "Node.js" ∧
    detectFramework none = "Unknown" ∧
    detectFramework (some { dependencies := none, devDependencies := none, scripts := none }) = "Unknown" :=
  ⟨(c6_framework_priority _).1 (by decide) (by decide),
   (c6_framework_priority _).2.1 (by decide) (by decide),
   (c6_framework_priority ⟨none, none, none⟩).2.2.1,
   (c6_framework_priority _).2.2.2 rfl rfl⟩

/-- Helper: the loop's round counter never exceeds its starting round plus
the remaining fuel. -/
lemma agentLoop_rounds_le (responses : Nat → AgentResponse) (fuel round : Nat) :
    (match agentLoopAux responses fuel round with
     | .finalAnswer _ r => r
     | .maxedOut r => r) ≤ round + fuel := by
  induction fuel generalizing round with
  | zero => simp [agentLoopAux]
  | succ n ih =>
    simp only [agentLoopAux]
    by_cases h : (responses round).toolCalls.isEmpty
    · simp [h]
    · simp only [h, Bool.false_eq_true, if_false]
      have := ih (round + 1)
      omega

/-- Helper: when every remaining round requests tool calls, the loop runs
out of fuel. -/
lemma agentLoopAux_maxed (responses : Nat → AgentResponse) (fuel round : Nat)
    (h : ∀ i, round ≤ i → i < round + fuel → (responses i).toolCalls.isEmpty = false) :
    agentLoopAux responses fuel round = .maxedOut (round + fuel) := by
  induction fuel generalizing round with
  | zero => simp [agentLoopAux]
  | succ n ih =>
    have h0 : (responses round).toolCalls.isEmpty = false := h round le_rfl (by omega)
    simp only [agentLoopAux, h0]
    have hrec := ih (round + 1) (fun i hi1 hi2 => h i (by omega) (by omega))
    simp only [Bool.false_eq_true, if_false]
    rw [hrec]
    exact congrArg LoopExit.maxedOut (by omega)

/-- C7.  The content agent's completion loop executes at most 8 rounds for
every response sequence, and when all 8 rounds contain tool calls the agent
returns the deterministic fallback result built purely from the analysis
and repo name — for any response parser. -/
theorem c7_loop_bound_and_fallback
    (parse : String → RepoAnalysis → String → OpenAIAgentResult)
    (responses : Nat → AgentResponse) (analysis : RepoAnalysis) (repo : String) :
    agentRounds responses ≤ 8 ∧
    (((List.range 8).all fun i => !(responses i).toolCalls.isEmpty) = true →
      runOpenAIAgentModel parse responses analysis repo =
        generateFallbackResult analysis repo) := by
  constructor
  · simpa [agentRounds, maxIterationsCap] using agentLoop_rounds_le responses 8 0
  · intro hall
    have h : ∀ i, 0 ≤ i → i < 0 + 8 → (responses i).toolCalls.isEmpty = false := by
      intro i _ hi
      have := List.all_eq_true.mp hall i (List.mem_range.mpr (by omega))
      simpa using this
    unfold runOpenAIAgentModel maxIterationsCap
    rw [agentLoopAux_maxed responses 8 0 h]

/-- Witness for C7: a response sequence that always requests a tool call
maxes the loop out and yields the fallback. -/
theorem c7_loop_bound_and_fallback_witness :
    agentRounds (fun _ => { content := none, toolCalls := [{ name := "read_repo_file", args := "src/index.ts" }] }) ≤ 8 ∧
    runOpenAIAgentModel (fun _ a r => generateFallbackResult a r)
      (fun _ => { content := none, toolCalls := [{ name := "read_repo_file", args := "src/index.ts" }] })
      analysisNext "demo" = generateFallbackResult analysisNext "demo" :=
  ⟨(c7_loop_bound_and_fallback (fun _ a r => generateFallbackResult a r)
      (fun _ => { content := none, toolCalls := [{ name := "read_repo_file", args := "src/index.ts" }] })
      analysisNext "demo").1,
   (c7_loop_bound_and_fallback (fun _ a r => generateFallbackResult a r)
      (fun _ => { content := none, toolCalls := [{ name := "read_repo_file", args := "src/index.ts" }] })
      analysisNext "demo").2 (by decide)⟩


/-- C1 amended.  When both agents fail, the merge produces provider
"template" and: README, Vercel config, env template and package scripts
from the standalone template generators, the landing page from the
orchestrator's own `buildLandingPage` with no AI copy, and the
recommendations from the orchestrator's rule-based default list. -/
theorem c1_both_agents_fail_template_fallback (analysis : RepoAnalysis)
    (repo : String) (description : Option String) (e1 e2 : String) :
    match (runOrchestrator repo description (.ok analysis) (.error e1) (.error e2)).result with
    | .ok r =>
      r.provider = .template ∧
      r.aiReadme = generateReadme repo analysis description ∧
      r.aiLandingPage = buildLandingPage repo analysis none description ∧
      r.vercelJson = generateVercelJsonFile analysis ∧
      r.envTemplate = generateEnvTemplate analysis ∧
      r.packageJsonScripts = generatePackageJsonScripts analysis ∧
      r.deploymentRecommendations = buildDefaultRecommendations analysis
    | .error _ => False := by
  exact ⟨rfl, rfl, rfl, rfl, rfl, rfl, rfl⟩

set_option maxRecDepth 40000 in
/-- C1 counterexample.  In a run where both agents fail, an `AgentResult`
with provider "template" is returned whose landing page differs from what
the standalone template generator `generateLandingPage` produces for the
same analysis, repo name and description (the orchestrator uses its own
builder instead). -/
theorem c1_counterexample :
    ((runOrchestrator "demo" none (.ok analysisNext) (.error "Blackbox API error 500") (.error "OpenAI API error 500")).result.toOption.map (fun r => r.provider)) = some Provider.template ∧
    ((runOrchestrator "demo" none (.ok analysisNext) (.error "Blackbox API error 500") (.error "OpenAI API error 500")).result.toOption.map (fun r => r.aiLandingPage)) ≠
      some (generateLandingPage "demo" analysisNext none) := by
  decide

/-- A successful content-agent result whose README text is empty (reachable:
`parseAgentResponse` on a model answer whose markdown fence contains only
whitespace returns a readme that trims to ""). -/
def emptyReadmeResult : OpenAIAgentResult :=
  { generateFallbackResult analysisNext "demo" with readme := "" }

set_option maxRecDepth 40000 in
/-- C2 counterexample.  When the code-insight agent fails and the content
agent succeeds with an empty README string, the merged result's README is
the template one, which differs from the content agent's. -/
theorem c2_counterexample :
    emptyReadmeResult.readme = "" ∧
    ((runOrchestrator "demo" none (.ok analysisNext) (.error "Blackbox API error 500") (.ok emptyReadmeResult)).result.toOption.map (fun r => r.aiReadme)) =
      some (generateReadme "demo" analysisNext none) ∧
    generateReadme "demo" analysisNext none ≠ emptyReadmeResult.readme := by
  decide

/-- C2 amended.  When only the code-insight agent fails, the merge takes
the README (when non-empty), the landing copy and the recommendations from
the content agent, and the Vercel config, env template and package scripts
from the template generators. -/
theorem c2_partial_success_merge (analysis : RepoAnalysis) (repo : String)
    (description : Option String) (e : String) (o : OpenAIAgentResult)
    (h : o.readme ≠ "") :
    match (runOrchestrator repo description (.ok analysis) (.error e) (.ok o)).result with
    | .ok r =>
      r.aiReadme = o.readme ∧
      r.aiLandingPage = buildLandingPage repo analysis (some o.landingPageCopy) description ∧
      r.deploymentRecommendations = o.deploymentRecommendations ∧
      r.vercelJson = generateVercelJsonFile analysis ∧
      r.envTemplate = generateEnvTemplate analysis ∧
      r.packageJsonScripts = generatePackageJsonScripts analysis
    | .error _ => False := by
  refine ⟨?_, rfl, rfl, rfl, rfl, rfl⟩
  show jsOr (some o.readme) (generateReadme repo analysis description) = o.readme
  simp [jsOr, h]

/-- Witness for C2: the amended merge law applied at a concrete run. -/
theorem c2_partial_success_merge_witness :
    match (runOrchestrator "demo" none (.ok analysisNext) (.error "Blackbox API error 500") (.ok (generateFallbackResult analysisNext "demo"))).result with
    | .ok r =>
      r.aiReadme = (generateFallbackResult analysisNext "demo").readme ∧
      r.aiLandingPage = buildLandingPage "demo" analysisNext
        (some (generateFallbackResult analysisNext "demo").landingPageCopy) none ∧
      r.deploymentRecommendations = (generateFallbackResult analysisNext "demo").deploymentRecommendations ∧
      r.vercelJson = generateVercelJsonFile analysisNext ∧
      r.envTemplate = generateEnvTemplate analysisNext ∧
      r.packageJsonScripts = generatePackageJsonScripts analysisNext
    | .error _ => False :=
  c2_partial_success_merge analysisNext "demo" none "Blackbox API error 500"
    (generateFallbackResult analysisNext "demo") (by decide)

/-- C3.  The only error that propagates out of a run is the analyzer's,
wrapped as "Repository analysis failed: ..."; when the analyzer succeeds a
complete `AgentResult` is returned, and a failed agent is recorded in it as
an error step carrying the failure detail. -/
theorem c3_only_analysis_failure_propagates (repo : String)
    (description : Option String)
    (analysisOutcome : Except String RepoAnalysis)
    (blackboxOutcome : Except String BlackboxAgentResult)
    (openaiOutcome : Except String OpenAIAgentResult) :
    match analysisOutcome with
    | .error e =>
      (runOrchestrator repo description analysisOutcome blackboxOutcome openaiOutcome).result =
        .error ("Repository analysis failed: " ++ e)
    | .ok _ =>
      match (runOrchestrator repo description analysisOutcome blackboxOutcome openaiOutcome).result with
      | .ok r =>
        (match blackboxOutcome with
         | .error e => r.steps.get? 1 = some { id := "2", label := "Blackbox AI: Deep code analysis", status := .error, detail := some ("Falling back to templates: " ++ e) }
         | .ok _ => True) ∧
        (match openaiOutcome with
         | .error e => r.steps.get? 2 = some { id := "3", label := "OpenAI: Generating README & landing page", status := .error, detail := some ("Falling back to templates: " ++ e) }
         | .ok _ => True)
      | .error _ => False := by
  cases analysisOutcome <;> cases blackboxOutcome <;> cases openaiOutcome <;>
    first
      | rfl
      | exact ⟨trivial, trivial⟩
      | exact ⟨trivial, rfl⟩
      | exact ⟨rfl, trivial⟩
      | exact ⟨rfl, rfl⟩

/-- Does this trace contain no step snapshot with status `pending`? -/
def noPending (t : List AgentStep) : Bool :=
  t.all fun s => s.status != .pending

/-- Identifiers of the step-creation events (the snapshots emitted with
status `running`), in emission order. -/
def runningIds (t : List AgentStep) : List String :=
  (t.filter fun s => s.status == .running).map (·.id)

/-- Is every step in this list finished (`done` or `error`)? -/
def allFinal (t : List AgentStep) : Bool :=
  t.all fun s => s.status == .done || s.status == .error

/-- C10.  Step ids are the decimal strings "1", "2", ... in creation order;
every step is created with status `running` and `pending` never occurs; and
every step of a returned `AgentResult` has status `done` or `error`. -/
theorem c10_step_lifecycle (repo : String) (description : Option String)
    (analysisOutcome : Except String RepoAnalysis)
    (blackboxOutcome : Except String BlackboxAgentResult)
    (openaiOutcome : Except String OpenAIAgentResult) :
    noPending (runOrchestrator repo description analysisOutcome blackboxOutcome openaiOutcome).trace = true ∧
    runningIds (runOrchestrator repo description analysisOutcome blackboxOutcome openaiOutcome).trace =
      (match analysisOutcome with
       | .ok _ => ["1", "2", "3", "4"]
       | .error _ => ["1"]) ∧
    (match (runOrchestrator repo description analysisOutcome blackboxOutcome openaiOutcome).result with
     | .ok r => r.steps.map (·.id) = ["1", "2", "3", "4"] ∧ allFinal r.steps = true
     | .error _ => True) := by
  cases analysisOutcome <;> cases blackboxOutcome <;> cases openaiOutcome <;>
    exact ⟨rfl, rfl, by constructor <;> rfl⟩

end Shipwright
